import Mathlib

/-!
Verification of the composite device tree of linux-driver-management.

This file gives a shallow embedding of the device model implemented in
src/lib/device.c together with the bitmask enumerations of src/lib/device.h,
and proves the behavioural properties claimed for it.

Modelling conventions:
- GLib hash tables keyed by strings are modelled as association lists with
  hash-table update semantics (insert and replace overwrite the entry with a
  matching key; remove deletes it; iteration order is the list order, which
  stands in for the unspecified table order).
- Pointers that may be NULL are modelled with Option.  The non-owning
  parent pointer of a device is modelled as an abstract address (Option Nat),
  since the tree stores it but never dereferences it.
- gint identifiers (vendor id, product id) are parsed hardware identifiers,
  always non-negative in the sources, and are modelled as Nat.
- Calling g_str_equal with a NULL first argument dereferences NULL
  (undefined behaviour); construction from a record with an absent subsystem
  is therefore modelled as failure (none), not as any produced device.
-/

namespace Ldm

/-- Device type bitmask constants from device.h (the ones used here). -/
def LDM_DEVICE_TYPE_ANY : Nat := 0

def LDM_DEVICE_TYPE_GPU : Nat := 2

def LDM_DEVICE_TYPE_HID : Nat := 4

def LDM_DEVICE_TYPE_PCI : Nat := 16

def LDM_DEVICE_ATTRIBUTE_NONE : Nat := 0

def LDM_DEVICE_ATTRIBUTE_BOOT_VGA : Nat := 1

/-- The closed set of device variants: the GType selected by
ldm_device_new_from_udev from the subsystem string. -/
inductive LdmVariant : Type where
  | Generic
  | PCI
  | USB
  | DMI
  | HID
  | Bluetooth
  | WiFi
deriving DecidableEq

/-- Identity fields of a device (the id struct of LdmDevice). -/
structure DeviceIdFields where
  name : Option String
  vendor : Option String
  vendor_id : Nat
  product_id : Nat
deriving DecidableEq

/-- OS fields of a device (the os struct of LdmDevice): sysfs path, modalias,
type and attribute bitmasks, and the private hwdb property table. -/
structure OsFields where
  sysfs_path : String
  modalias : Option String
  devtype : Nat
  attributes : Nat
  hwdb_info : List (String × String)
deriving DecidableEq

mutual

/-- A device node: variant tag, identity, OS fields, non-owning parent
pointer (abstract address), and the owned children table keyed by sysfs
path (the tree.kids hash table). -/
inductive LdmDevice : Type where
  | mk (variant : LdmVariant) (idf : DeviceIdFields) (os : OsFields)
       (parent : Option Nat) (kids : KidList) : LdmDevice

/-- The children hash table of a device: a keyed sequence of owned child
devices, modelling the GHashTable from sysfs path to child. -/
inductive KidList : Type where
  | nil : KidList
  | cons (key : String) (dev : LdmDevice) (rest : KidList) : KidList

end

deriving instance DecidableEq for LdmDevice

def LdmDevice.variant : LdmDevice → LdmVariant
  | .mk v _ _ _ _ => v

def LdmDevice.idf : LdmDevice → DeviceIdFields
  | .mk _ i _ _ _ => i

def LdmDevice.os : LdmDevice → OsFields
  | .mk _ _ o _ _ => o

def LdmDevice.parent : LdmDevice → Option Nat
  | .mk _ _ _ p _ => p

def LdmDevice.kids : LdmDevice → KidList
  | .mk _ _ _ _ k => k

def LdmDevice.name (d : LdmDevice) : Option String := d.idf.name

def LdmDevice.vendor (d : LdmDevice) : Option String := d.idf.vendor

def LdmDevice.vendor_id (d : LdmDevice) : Nat := d.idf.vendor_id

def LdmDevice.product_id (d : LdmDevice) : Nat := d.idf.product_id

def LdmDevice.path (d : LdmDevice) : String := d.os.sysfs_path

def LdmDevice.modalias (d : LdmDevice) : Option String := d.os.modalias

def LdmDevice.devtype (d : LdmDevice) : Nat := d.os.devtype

def LdmDevice.attributes (d : LdmDevice) : Nat := d.os.attributes

def LdmDevice.hwdb (d : LdmDevice) : List (String × String) := d.os.hwdb_info

/-- Lookup in the children table (g_hash_table_lookup on tree.kids). -/
def KidList.lookup : KidList → String → Option LdmDevice
  | .nil, _ => none
  | .cons k d rest, key => if k == key then some d else rest.lookup key

/-- Insert with replacement in the children table (g_hash_table_replace):
if the key is present its entry is overwritten, otherwise a new entry is
added. -/
def KidList.replace : KidList → String → LdmDevice → KidList
  | .nil, key, dev => .cons key dev .nil
  | .cons k d rest, key, dev =>
      if k == key then .cons key dev rest else .cons k d (rest.replace key dev)

/-- Removal from the children table (g_hash_table_remove): deletes the
entry with the given key, if any. -/
def KidList.removeKey : KidList → String → KidList
  | .nil, _ => .nil
  | .cons k d rest, key => if k == key then rest else .cons k d (rest.removeKey key)

/-- The child devices stored in the table (g_hash_table_get_values). -/
def KidList.values : KidList → List LdmDevice
  | .nil => []
  | .cons _ d rest => d :: rest.values

mutual

/-- All nodes of the subtree rooted at a device: the device itself and,
recursively, every node reachable through the children table. -/
def LdmDevice.allNodes : LdmDevice → List LdmDevice
  | .mk v i o p kids => .mk v i o p kids :: kids.allNodes

/-- All nodes of the subtrees rooted at the devices of a children table. -/
def KidList.allNodes : KidList → List LdmDevice
  | .nil => []
  | .cons _ d rest => d.allNodes ++ rest.allNodes

end

mutual

/-- Core of ldm_device_has_type on a non-NULL device: test the mask against
the own devtype bitmask, then walk the children recursively. -/
def LdmDevice.hasType : LdmDevice → Nat → Bool
  | .mk _ _ os _ kids, mask => ((os.devtype &&& mask) == mask) || kids.hasType mask

/-- The child-walking loop of ldm_device_has_type: ldm_device_has_type on
each stored child, short-circuiting on the first match. -/
def KidList.hasType : KidList → Nat → Bool
  | .nil, _ => false
  | .cons _ d rest, mask => d.hasType mask || rest.hasType mask

end

/-- Core of ldm_device_has_attribute on a non-NULL device: test the mask
against the own attributes bitmask, then walk the children — calling
ldm_device_has_type on each child, exactly as the source does. -/
def LdmDevice.hasAttr : LdmDevice → Nat → Bool
  | .mk _ _ os _ kids, mask => ((os.attributes &&& mask) == mask) || kids.hasType mask

/-- C API: ldm_device_get_modalias; NULL self yields NULL. -/
def ldm_device_get_modalias : Option LdmDevice → Option String
  | none => none
  | some d => d.modalias

/-- C API: ldm_device_get_name; NULL self yields NULL. -/
def ldm_device_get_name : Option LdmDevice → Option String
  | none => none
  | some d => d.name

/-- C API: ldm_device_get_path; NULL self yields NULL. -/
def ldm_device_get_path : Option LdmDevice → Option String
  | none => none
  | some d => some d.path

/-- C API: ldm_device_get_vendor; NULL self yields NULL. -/
def ldm_device_get_vendor : Option LdmDevice → Option String
  | none => none
  | some d => d.vendor

/-- C API: ldm_device_get_vendor_id; NULL self yields 0. -/
def ldm_device_get_vendor_id : Option LdmDevice → Nat
  | none => 0
  | some d => d.vendor_id

/-- C API: ldm_device_get_product_id; NULL self yields 0. -/
def ldm_device_get_product_id : Option LdmDevice → Nat
  | none => 0
  | some d => d.product_id

/-- C API: ldm_device_get_device_type; NULL self yields LDM_DEVICE_TYPE_ANY. -/
def ldm_device_get_device_type : Option LdmDevice → Nat
  | none => LDM_DEVICE_TYPE_ANY
  | some d => d.devtype

/-- C API: ldm_device_get_attributes; NULL self yields
LDM_DEVICE_ATTRIBUTE_NONE (the ANY placeholder, value 0). -/
def ldm_device_get_attributes : Option LdmDevice → Nat
  | none => LDM_DEVICE_ATTRIBUTE_NONE
  | some d => d.attributes

/-- C API: ldm_device_has_type; NULL self yields FALSE. -/
def ldm_device_has_type : Option LdmDevice → Nat → Bool
  | none, _ => false
  | some d, mask => d.hasType mask

/-- C API: ldm_device_has_attribute; NULL self yields FALSE. -/
def ldm_device_has_attribute : Option LdmDevice → Nat → Bool
  | none, _ => false
  | some d, mask => d.hasAttr mask

/-- C API: ldm_device_get_parent; NULL self yields NULL. -/
def ldm_device_get_parent : Option LdmDevice → Option Nat
  | none => none
  | some d => d.parent

/-- C API: ldm_device_get_children on a non-NULL device. -/
def ldm_device_get_children (self : LdmDevice) : List LdmDevice :=
  self.kids.values

/-- C API: ldm_device_add_child on a non-NULL device: stores the child in
tree.kids keyed by the path of the child, replacing any entry already
stored under that key. -/
def ldm_device_add_child (self child : LdmDevice) : LdmDevice :=
  match self with
  | .mk v i o p kids => .mk v i o p (kids.replace child.path child)

/-- C API: ldm_device_remove_child_by_path on a non-NULL device: removes
the entry stored under the path, if any. -/
def ldm_device_remove_child_by_path (self : LdmDevice) (path : String) : LdmDevice :=
  match self with
  | .mk v i o p kids => .mk v i o p (kids.removeKey path)

/-- C API: ldm_device_remove_child, a wrapper around
ldm_device_remove_child_by_path at the path of the child. -/
def ldm_device_remove_child (self child : LdmDevice) : LdmDevice :=
  ldm_device_remove_child_by_path self child.path

/-- C API: ldm_device_get_child_by_path on a non-NULL device. -/
def ldm_device_get_child_by_path (self : LdmDevice) (path : String) : Option LdmDevice :=
  self.kids.lookup path

/-- A raw udev device record as consumed by ldm_device_new_from_udev:
subsystem (udev_device_get_subsystem, may be NULL), sysfs path
(udev_device_get_syspath), and the sysattr key/value view
(udev_device_get_sysattr_value). -/
structure UdevDevice where
  subsystem : Option String
  syspath : String
  sysattrs : List (String × String)

/-- The hwdb property list handed to the constructor (udev_list). -/
abbrev UdevList := List (String × String)

/-- Sysattr lookup: udev_device_get_sysattr_value, absent keys yield NULL. -/
def udev_device_get_sysattr_value (d : UdevDevice) (attrName : String) : Option String :=
  (d.sysattrs.find? (fun p => p.1 == attrName)).map (fun p => p.2)

/-- String-keyed hash table insert (g_hash_table_insert): overwrite the
value if the key is present, otherwise add a new entry. -/
def tblInsert (tbl : List (String × String)) (k v : String) : List (String × String) :=
  if tbl.any (fun p => p.1 == k) then
    tbl.map (fun p => if p.1 == k then (p.1, v) else p)
  else
    tbl ++ [(k, v)]

/-- String-keyed hash table lookup (g_hash_table_lookup): NULL if absent. -/
def tblLookup (tbl : List (String × String)) (k : String) : Option String :=
  (tbl.find? (fun p => p.1 == k)).map (fun p => p.2)

/-- The private hwdb table built by the udev_list_entry_foreach loop of
ldm_device_new_from_udev: every property pair inserted in order into the
initially empty os.hwdb_info table. -/
def hwdbOfProps (props : UdevList) : List (String × String) :=
  props.foldl (fun acc p => tblInsert acc p.1 p.2) []

/-- Lowercase hexadecimal rendering of a number, the conversion performed
by g_strdup_printf with a percent-x directive. -/
def natToHex (n : Nat) : String :=
  String.mk (Nat.toDigits 16 n)

/-- The subsystem-to-variant dispatch at the top of
ldm_device_new_from_udev, for a non-NULL subsystem string. -/
def variantForSubsystem (subsystem : String) : LdmVariant :=
  if subsystem == "usb" then .USB
  else if subsystem == "pci" then .PCI
  else if subsystem == "dmi" then .DMI
  else if subsystem == "hid" then .HID
  else if subsystem == "bluetooth" then .Bluetooth
  else if subsystem == "ieee80211" then .WiFi
  else .Generic

/-- The hardware fields a per-variant initialiser may write. -/
structure HwFields where
  vendor_id : Nat
  product_id : Nat
  devtype : Nat
  attributes : Nat

/-- Modelled from the spec: the per-variant initialisers
ldm_pci_device_init_private, ldm_usb_device_init_private,
ldm_dmi_device_init_private and ldm_bluetooth_device_init_private live in
pci-device.c, usb-device.c, dmi-device.c and bluetooth-device.c, which are
not among the sources.  Per the spec (section 4.2 step 7) an initialiser
may set or override vendor_id, product_id, device_type, attributes and
variant-only fields from the raw record, and touches nothing else (in
particular not the name or vendor).  It is modelled as an arbitrary
function on those fields, a parameter of the construction. -/
structure VariantInit where
  run : LdmVariant → UdevDevice → HwFields → HwFields

/-- Construction of a device from a raw udev record
(ldm_device_new_from_udev): dispatch the variant from the subsystem,
zero-initialise the object with the construct-only parent, copy path and
modalias, duplicate the hwdb properties and derive vendor and name from
them, run the variant initialiser for PCI, USB, DMI and Bluetooth, then
synthesise a fallback name from the product id.  A record with an absent
subsystem reaches g_str_equal with NULL (undefined behaviour, a crash in
practice only): modelled as failure. -/
def ldm_device_new_from_udev (vi : VariantInit) (parent : Option Nat)
    (device : UdevDevice) (properties : Option UdevList) : Option LdmDevice :=
  match device.subsystem with
  | none => none
  | some subsystem =>
    let variant := variantForSubsystem subsystem
    let sysfs_path := device.syspath
    let modalias := udev_device_get_sysattr_value device "modalias"
    let hwdb : List (String × String) :=
      match properties with
      | none => []
      | some props => hwdbOfProps props
    let vendor : Option String :=
      match properties with
      | none => none
      | some _ =>
          match tblLookup hwdb "ID_VENDOR_FROM_DATABASE" with
          | some v => some v
          | none => tblLookup hwdb "ID_VENDOR"
    let name0 : Option String :=
      match properties with
      | none => none
      | some _ =>
          match tblLookup hwdb "ID_MODEL_FROM_DATABASE" with
          | some n => some n
          | none => tblLookup hwdb "ID_MODEL"
    let hw0 : HwFields := ⟨0, 0, 0, 0⟩
    let hw : HwFields :=
      match variant with
      | .PCI => vi.run variant device hw0
      | .USB => vi.run variant device hw0
      | .DMI => vi.run variant device hw0
      | .Bluetooth => vi.run variant device hw0
      | _ => hw0
    let name : Option String :=
      match name0 with
      | some n => some n
      | none => some ("Device " ++ natToHex hw.product_id)
    some (.mk variant ⟨name, vendor, hw.vendor_id, hw.product_id⟩
           ⟨sysfs_path, modalias, hw.devtype, hw.attributes, hwdb⟩ parent .nil)

/-! Helper lemmas about the children table and the recursive queries. -/

theorem KidList.lookup_replace : ∀ (ks : KidList) (key : String) (v : LdmDevice),
    (ks.replace key v).lookup key = some v
  | .nil, key, v => by simp [KidList.replace, KidList.lookup]
  | .cons k d rest, key, v => by
    by_cases h : k == key
    · simp [KidList.replace, h, KidList.lookup]
    · simp [KidList.replace, h, KidList.lookup, KidList.lookup_replace rest key v]

theorem KidList.removeKey_of_lookup_none : ∀ (ks : KidList) (key : String),
    ks.lookup key = none → ks.removeKey key = ks
  | .nil, _, _ => rfl
  | .cons k d rest, key, h => by
    rw [KidList.lookup] at h
    by_cases hk : k == key
    · simp [hk] at h
    · simp [hk] at h
      simp [KidList.removeKey, hk, KidList.removeKey_of_lookup_none rest key h]

mutual

theorem LdmDevice.hasType_eq_any : ∀ (d : LdmDevice) (mask : Nat),
    d.hasType mask = d.allNodes.any (fun n => n.devtype &&& mask == mask)
  | .mk v i o p kids, mask => by
    rw [LdmDevice.hasType, LdmDevice.allNodes, List.any_cons,
        KidList.hasType_kids_eq_any kids mask]
    rfl

theorem KidList.hasType_kids_eq_any : ∀ (ks : KidList) (mask : Nat),
    ks.hasType mask = ks.allNodes.any (fun n => n.devtype &&& mask == mask)
  | .nil, _ => rfl
  | .cons k d rest, mask => by
    rw [KidList.hasType, KidList.allNodes, List.any_append,
        LdmDevice.hasType_eq_any d mask, KidList.hasType_kids_eq_any rest mask]

end

theorem KidList.hasType_eq_values_any : ∀ (ks : KidList) (mask : Nat),
    ks.hasType mask = ks.values.any (fun c => c.hasType mask)
  | .nil, _ => rfl
  | .cons k d rest, mask => by
    rw [KidList.hasType, KidList.values, List.any_cons,
        KidList.hasType_eq_values_any rest mask]

theorem LdmDevice.allNodes_def (d : LdmDevice) :
    d.allNodes = d :: d.kids.allNodes := by
  cases d with
  | mk v i o p kids => rfl

theorem KidList.allNodes_replace_subset : ∀ (ks : KidList) (key : String) (c : LdmDevice),
    ∀ x ∈ (ks.replace key c).allNodes, x ∈ ks.allNodes ∨ x ∈ c.allNodes
  | .nil, key, c, x, hx => by
    simp [KidList.replace, KidList.allNodes] at hx
    exact Or.inr hx
  | .cons k d rest, key, c, x, hx => by
    by_cases h : k == key
    · simp [KidList.replace, h, KidList.allNodes] at hx
      rcases hx with hx | hx
      · exact Or.inr hx
      · exact Or.inl (by simp [KidList.allNodes]; exact Or.inr hx)
    · simp [KidList.replace, h, KidList.allNodes] at hx
      rcases hx with hx | hx
      · exact Or.inl (by simp [KidList.allNodes]; exact Or.inl hx)
      · rcases KidList.allNodes_replace_subset rest key c x (by simpa using hx) with h2 | h2
        · exact Or.inl (by simp [KidList.allNodes]; exact Or.inr h2)
        · exact Or.inr h2

theorem KidList.allNodes_removeKey_subset : ∀ (ks : KidList) (key : String),
    ∀ x ∈ (ks.removeKey key).allNodes, x ∈ ks.allNodes
  | .nil, key, x, hx => hx
  | .cons k d rest, key, x, hx => by
    by_cases h : k == key
    · simp [KidList.removeKey, h] at hx
      simp [KidList.allNodes]
      exact Or.inr hx
    · simp [KidList.removeKey, h, KidList.allNodes] at hx
      simp [KidList.allNodes]
      rcases hx with hx | hx
      · exact Or.inl hx
      · exact Or.inr (KidList.allNodes_removeKey_subset rest key x (by simpa using hx))

/-! Concrete fixtures used by the witness theorems. -/

def devW_childA : LdmDevice :=
  .mk .Generic ⟨none, none, 0, 0⟩ ⟨"/sys/a", none, 0, 0, []⟩ none .nil

def devW_childB : LdmDevice :=
  .mk .Generic ⟨none, none, 0, 0⟩ ⟨"/sys/b", none, 0, 0, []⟩ none .nil

def devW_parent : LdmDevice :=
  .mk .Generic ⟨none, none, 0, 0⟩ ⟨"/sys/p", none, 0, 0, []⟩ none
    (.cons "/sys/a" devW_childA .nil)

/-! The claims. -/

/-- C1: for every device node and every type mask, ldm_device_has_type
returns true exactly when the containment test of the mask against
device_type succeeds at the node itself or at some node of the subtree
reachable through the children map. -/
theorem claim_C1_has_type_recursive (d : LdmDevice) (mask : Nat) :
    ldm_device_has_type (some d) mask = true ↔
      ∃ n ∈ d.allNodes, n.devtype &&& mask = mask := by
  rw [show ldm_device_has_type (some d) mask = d.hasType mask from rfl,
      LdmDevice.hasType_eq_any]
  simp

/-- C2: ldm_device_has_attribute returns true exactly when the containment
test of the mask against the attributes bitmask succeeds at the node
itself, or ldm_device_has_type — the type predicate, not the attribute
predicate — holds at some direct child. -/
theorem claim_C2_has_attribute_recurses_type (d : LdmDevice) (mask : Nat) :
    ldm_device_has_attribute (some d) mask = true ↔
      (d.attributes &&& mask = mask ∨
        ∃ c ∈ ldm_device_get_children d, ldm_device_has_type (some c) mask = true) := by
  cases d with
  | mk v i o p kids =>
    rw [show ldm_device_has_attribute (some (.mk v i o p kids)) mask
          = (((o.attributes &&& mask) == mask) || kids.hasType mask) from rfl,
        KidList.hasType_eq_values_any]
    simp [ldm_device_get_children, LdmDevice.kids, LdmDevice.attributes, LdmDevice.os,
          ldm_device_has_type]

/-- C3: after ldm_device_add_child, the lookup of the path of the child
returns exactly that child, and any different node previously stored under
the same path is no longer reachable under it (last-write-wins). -/
theorem claim_C3_add_child_lookup (p c : LdmDevice) :
    ldm_device_get_child_by_path (ldm_device_add_child p c) c.path = some c ∧
    ∀ prev : LdmDevice, prev ≠ c →
      ldm_device_get_child_by_path (ldm_device_add_child p c) c.path ≠ some prev := by
  cases p with
  | mk v i o par kids =>
    have h1 : ldm_device_get_child_by_path
        (ldm_device_add_child (.mk v i o par kids) c) c.path = some c := by
      rw [show ldm_device_add_child (.mk v i o par kids) c
            = .mk v i o par (kids.replace c.path c) from rfl]
      exact KidList.lookup_replace kids c.path c
    refine ⟨h1, ?_⟩
    intro prev hne heq
    rw [h1] at heq
    exact hne (Option.some.injEq .. ▸ heq).symm

theorem claim_C3_witness :
    ldm_device_get_child_by_path (ldm_device_add_child devW_parent devW_childB)
      devW_childB.path = some devW_childB ∧
    ldm_device_get_child_by_path (ldm_device_add_child devW_parent devW_childB)
      devW_childB.path ≠ some devW_childA :=
  ⟨(claim_C3_add_child_lookup devW_parent devW_childB).1,
   (claim_C3_add_child_lookup devW_parent devW_childB).2 devW_childA (by decide)⟩

/-- C4: removing a path that is not a key of the children map is a no-op:
ldm_device_remove_child_by_path returns the parent with every field,
including the children map, unchanged. -/
theorem claim_C4_remove_absent_noop (p : LdmDevice) (path : String)
    (h : ldm_device_get_child_by_path p path = none) :
    ldm_device_remove_child_by_path p path = p := by
  cases p with
  | mk v i o par kids =>
    rw [show ldm_device_remove_child_by_path (.mk v i o par kids) path
          = .mk v i o par (kids.removeKey path) from rfl,
        KidList.removeKey_of_lookup_none kids path h]

theorem claim_C4_witness :
    ldm_device_remove_child_by_path devW_parent "/sys/none" = devW_parent :=
  claim_C4_remove_absent_noop devW_parent "/sys/none" rfl

/-- C8: every read accessor and query absorbs a NULL device instead of
aborting: the type accessor yields the ANY bitmask, the attribute accessor
the empty bitmask, both recursive queries yield false, the string
accessors yield an absent value and the id accessors yield 0. -/
theorem claim_C8_null_defaults :
    ldm_device_get_device_type none = LDM_DEVICE_TYPE_ANY ∧
    ldm_device_get_attributes none = LDM_DEVICE_ATTRIBUTE_NONE ∧
    (∀ mask : Nat, ldm_device_has_type none mask = false) ∧
    (∀ mask : Nat, ldm_device_has_attribute none mask = false) ∧
    ldm_device_get_name none = none ∧
    ldm_device_get_vendor none = none ∧
    ldm_device_get_path none = none ∧
    ldm_device_get_modalias none = none ∧
    ldm_device_get_product_id none = 0 ∧
    ldm_device_get_vendor_id none = 0 :=
  ⟨rfl, rfl, fun _ => rfl, fun _ => rfl, rfl, rfl, rfl, rfl, rfl, rfl⟩

/-- C9: ldm_device_remove_child produces exactly the state produced by
ldm_device_remove_child_by_path at the path of the child; the two removal
operations agree whenever the path of the child argument equals the path
argument. -/
theorem claim_C9_remove_equiv (s c : LdmDevice) (p : String) (hp : c.path = p) :
    ldm_device_remove_child s c = ldm_device_remove_child_by_path s p := by
  subst hp
  rfl

theorem claim_C9_witness :
    ldm_device_remove_child devW_parent devW_childA
      = ldm_device_remove_child_by_path devW_parent "/sys/a" :=
  claim_C9_remove_equiv devW_parent devW_childA "/sys/a" rfl

/-- C10: the zero mask (ANY and NONE) always satisfies the containment test
at the node itself, so both recursive queries return true on every device
for mask 0. -/
theorem claim_C10_zero_mask (d : LdmDevice) :
    ldm_device_has_type (some d) 0 = true ∧
    ldm_device_has_attribute (some d) 0 = true := by
  cases d with
  | mk v i o p kids =>
    constructor
    · rw [show ldm_device_has_type (some (.mk v i o p kids)) 0
            = (((o.devtype &&& 0) == 0) || kids.hasType 0) from rfl]
      simp
    · rw [show ldm_device_has_attribute (some (.mk v i o p kids)) 0
            = (((o.attributes &&& 0) == 0) || kids.hasType 0) from rfl]
      simp

/-! Fixtures for the construction claims. -/

def viW_id : VariantInit := ⟨fun _ _ hw => hw⟩

def viW_16 : VariantInit :=
  ⟨fun _ _ hw => ⟨hw.vendor_id, 16, hw.devtype, hw.attributes⟩⟩

def devW_pci : UdevDevice := ⟨some "pci", "/sys/pci0", []⟩

def devW_nonsense : UdevDevice := ⟨some "nonsense", "/sys/n", []⟩

def devW_nosub : UdevDevice := ⟨none, "/sys/x", []⟩

def devW_resultC5 : LdmDevice :=
  .mk .PCI ⟨some "Device 10", none, 0, 16⟩ ⟨"/sys/pci0", none, 0, 0, []⟩ none .nil

def devW_generic : LdmDevice :=
  .mk .Generic ⟨some "Device 0", none, 0, 0⟩ ⟨"/sys/n", none, 0, 0, []⟩ none .nil

def devW_c7 : LdmDevice :=
  .mk .Generic ⟨some "Device 0", none, 0, 0⟩ ⟨"/sys/g", none, 0, 0, []⟩ (some 7) .nil

def devW_g : UdevDevice := ⟨some "nonsense", "/sys/g", []⟩

/-- C5: construction derives the vendor by preferring the hwdb key
ID_VENDOR_FROM_DATABASE, else ID_VENDOR, else leaving it unset, derives
the name by preferring ID_MODEL_FROM_DATABASE, else ID_MODEL, and when
both are absent synthesises the name as the word Device followed by the
product id in lowercase hexadecimal without extra padding, so that 0x10
renders as 10. -/
theorem claim_C5_identity_derivation (vi : VariantInit) (parent : Option Nat)
    (device : UdevDevice) (props : UdevList) (d : LdmDevice)
    (h : ldm_device_new_from_udev vi parent device (some props) = some d) :
    d.vendor = Option.or (tblLookup (hwdbOfProps props) "ID_VENDOR_FROM_DATABASE")
                 (tblLookup (hwdbOfProps props) "ID_VENDOR") ∧
    d.name = some (Option.getD
        (Option.or (tblLookup (hwdbOfProps props) "ID_MODEL_FROM_DATABASE")
          (tblLookup (hwdbOfProps props) "ID_MODEL"))
        ("Device " ++ natToHex d.product_id)) ∧
    natToHex 16 = "10" := by
  cases hs : device.subsystem with
  | none => simp [ldm_device_new_from_udev, hs] at h
  | some s =>
    simp [ldm_device_new_from_udev, hs] at h
    subst h
    refine ⟨?_, ?_, rfl⟩
    · cases tblLookup (hwdbOfProps props) "ID_VENDOR_FROM_DATABASE" with
      | none => rfl
      | some v => rfl
    · cases tblLookup (hwdbOfProps props) "ID_MODEL_FROM_DATABASE" with
      | none =>
        cases tblLookup (hwdbOfProps props) "ID_MODEL" with
        | none => rfl
        | some n => rfl
      | some n => rfl

theorem claim_C5_witness :
    devW_resultC5.name = some "Device 10" ∧ devW_resultC5.vendor = none :=
  have h := claim_C5_identity_derivation viW_16 none devW_pci [] devW_resultC5 rfl
  ⟨h.2.1.trans rfl, h.1.trans rfl⟩

/-- C6 counterexample: the claim asserts that a record with an absent
subsystem yields a Generic device, but an absent subsystem is handed to
g_str_equal, which dereferences NULL; construction is modelled as failing
there, producing no device at all. -/
theorem claim_C6_counterexample :
    ldm_device_new_from_udev viW_id none devW_nosub none = none := rfl

/-- C6 amended: for every record whose subsystem is present, construction
selects the variant by the exact mapping usb to USB, pci to PCI, dmi to
DMI, hid to HID, bluetooth to Bluetooth and ieee80211 to WiFi, and any
other present subsystem value yields the Generic variant, which gets no
extra initialiser and has device_type equal to ANY (0); an absent
subsystem is not handled (construction does not produce a device). -/
theorem claim_C6_variant_dispatch (vi : VariantInit) (parent : Option Nat)
    (device : UdevDevice) (props : Option UdevList) (s : String) (d : LdmDevice)
    (hs : device.subsystem = some s)
    (h : ldm_device_new_from_udev vi parent device props = some d) :
    d.variant = variantForSubsystem s ∧
    variantForSubsystem "usb" = .USB ∧
    variantForSubsystem "pci" = .PCI ∧
    variantForSubsystem "dmi" = .DMI ∧
    variantForSubsystem "hid" = .HID ∧
    variantForSubsystem "bluetooth" = .Bluetooth ∧
    variantForSubsystem "ieee80211" = .WiFi ∧
    (s ≠ "usb" → s ≠ "pci" → s ≠ "dmi" → s ≠ "hid" → s ≠ "bluetooth" →
      s ≠ "ieee80211" → d.variant = .Generic ∧ d.devtype = LDM_DEVICE_TYPE_ANY) := by
  simp [ldm_device_new_from_udev, hs] at h
  subst h
  refine ⟨rfl, rfl, rfl, rfl, rfl, rfl, rfl, ?_⟩
  intro h1 h2 h3 h4 h5 h6
  have hv : variantForSubsystem s = .Generic := by
    simp [variantForSubsystem, beq_iff_eq, h1, h2, h3, h4, h5, h6]
  rw [hv]
  exact ⟨rfl, rfl⟩

theorem claim_C6_witness :
    devW_generic.variant = LdmVariant.Generic ∧
    devW_generic.devtype = LDM_DEVICE_TYPE_ANY := by
  have h := claim_C6_variant_dispatch viW_id none devW_nonsense none "nonsense"
    devW_generic rfl rfl
  exact h.2.2.2.2.2.2.2 (by decide) (by decide) (by decide) (by decide)
    (by decide) (by decide)

/-- C7: the parent link is set at construction to the supplied parent and
is never changed by any tree operation: each of add_child, remove_child
and remove_child_by_path keeps the parent link of the node it rewrites,
and every node of the resulting tree is either that rewritten root or a
node of the input trees, unchanged. -/
theorem claim_C7_parent_immutable :
    (∀ (vi : VariantInit) (parent : Option Nat) (device : UdevDevice)
       (props : Option UdevList) (d : LdmDevice),
       ldm_device_new_from_udev vi parent device props = some d →
       ldm_device_get_parent (some d) = parent) ∧
    (∀ s c : LdmDevice, (ldm_device_add_child s c).parent = s.parent ∧
       ∀ n ∈ (ldm_device_add_child s c).allNodes,
         n = ldm_device_add_child s c ∨ n ∈ s.allNodes ∨ n ∈ c.allNodes) ∧
    (∀ s c : LdmDevice, (ldm_device_remove_child s c).parent = s.parent ∧
       ∀ n ∈ (ldm_device_remove_child s c).allNodes,
         n = ldm_device_remove_child s c ∨ n ∈ s.allNodes) ∧
    (∀ (s : LdmDevice) (path : String),
       (ldm_device_remove_child_by_path s path).parent = s.parent ∧
       ∀ n ∈ (ldm_device_remove_child_by_path s path).allNodes,
         n = ldm_device_remove_child_by_path s path ∨ n ∈ s.allNodes) := by
  have hrem : ∀ (s : LdmDevice) (path : String),
      (ldm_device_remove_child_by_path s path).parent = s.parent ∧
      ∀ n ∈ (ldm_device_remove_child_by_path s path).allNodes,
        n = ldm_device_remove_child_by_path s path ∨ n ∈ s.allNodes := by
    intro s path
    cases s with
    | mk v i o par kids =>
      refine ⟨rfl, ?_⟩
      intro n hn
      rw [show ldm_device_remove_child_by_path (.mk v i o par kids) path
            = .mk v i o par (kids.removeKey path) from rfl] at hn ⊢
      rw [LdmDevice.allNodes_def] at hn
      rcases List.mem_cons.mp hn with h | h
      · exact Or.inl h
      · refine Or.inr ?_
        rw [LdmDevice.allNodes_def]
        exact List.mem_cons_of_mem _
          (KidList.allNodes_removeKey_subset kids path n h)
  refine ⟨?_, ?_, ?_, hrem⟩
  · intro vi parent device props d h
    cases hs : device.subsystem with
    | none => simp [ldm_device_new_from_udev, hs] at h
    | some s =>
      simp [ldm_device_new_from_udev, hs] at h
      subst h
      rfl
  · intro s c
    cases s with
    | mk v i o par kids =>
      refine ⟨rfl, ?_⟩
      intro n hn
      rw [show ldm_device_add_child (.mk v i o par kids) c
            = .mk v i o par (kids.replace c.path c) from rfl] at hn ⊢
      rw [LdmDevice.allNodes_def] at hn
      rcases List.mem_cons.mp hn with h | h
      · exact Or.inl h
      · rcases KidList.allNodes_replace_subset kids c.path c n h with h2 | h2
        · refine Or.inr (Or.inl ?_)
          rw [LdmDevice.allNodes_def]
          exact List.mem_cons_of_mem _ h2
        · exact Or.inr (Or.inr h2)
  · intro s c
    exact hrem s c.path

theorem claim_C7_witness :
    ldm_device_get_parent (some devW_c7) = some 7 :=
  claim_C7_parent_immutable.1 viW_id (some 7) devW_g none devW_c7 rfl

end Ldm
